import Mathlib

/-!
Verification of the AI-News-Aggregator ingestion pipeline.

This file gives a shallow embedding, in Lean 4, of the ingestion core of the
repository (backend/app/ingest/rss.py, backend/app/ingest/social.py,
backend/app/ingest/scraper.py and scripts/fetch_rss.py) and proves the
specified properties about it.

Modelling conventions, used throughout:

* Network I/O (requests.get, JSON decoding, feedparser parsing,
  BeautifulSoup parsing of fetched bytes) is represented by oracle
  functions collected in an `Env` structure.  Each oracle returns
  `Except String α`: `.error` models a raised Python exception,
  `.ok` a successful fetch-and-parse.  The pure logic that the source
  performs on the fetched data is translated literally.
* A parsed HTML document is abstracted to exactly the queries the code
  makes of it (`HtmlDoc`, `DiscoveryDoc`, `ArticlePage` below).  A
  present `Option` field means BeautifulSoup's `find` returned a truthy
  element; the carried string is that element's `get_text` result.
* Python `datetime` values are represented by their UTC Unix timestamp
  (an `Int`).  `datetime.isoformat` is injective and never produces the
  empty string, and `datetime.fromisoformat` inverts it, so a record's
  `published` ISO string is represented by `Option Int`: `some t` stands
  for the (non-empty) ISO-8601 UTC rendering of timestamp `t`, `none`
  for Python `None`.
* Python truthiness on optional strings (None and "" are falsy) is
  modelled by `truthy`/`orEmpty`.
-/

deriving instance DecidableEq for Except

namespace NewsAgg

/-- Python truthiness on an optional string: `None` and `""` are falsy;
`truthy o = some s` exactly when the Python value is a non-empty string. -/
def truthy : Option String → Option String
  | some s => if s = "" then none else some s
  | none => none

/-- Python `x or ""` for an optional string `x`. -/
def orEmpty (o : Option String) : String := (truthy o).getD ""

/-- Python `str.lower` (character-wise model). -/
def pyLower (s : String) : String := String.mk (s.toList.map Char.toLower)

/-- Python `str.strip` (trim surrounding whitespace). -/
def pyStrip (s : String) : String :=
  String.mk (((s.toList.dropWhile Char.isWhitespace).reverse.dropWhile
    Char.isWhitespace).reverse)

/-- Is the first character list an initial segment of the second? -/
def chPre : List Char → List Char → Bool
  | [], _ => true
  | _ :: _, [] => false
  | a :: as, b :: bs => a == b && chPre as bs

/-- Does the second list contain the first as a contiguous sublist? -/
def chSub (needle : List Char) : List Char → Bool
  | [] => needle.isEmpty
  | c :: rest => chPre needle (c :: rest) || chSub needle rest

/-- Python `needle in hay` on strings (substring containment). -/
def strContains (hay needle : String) : Bool := chSub needle.toList hay.toList

/-- Python `s.startswith(p)`. -/
def pyStartsWith (s p : String) : Bool := chPre p.toList s.toList

/-- Python `s.endswith(p)`. -/
def pyEndsWith (s p : String) : Bool := chPre p.toList.reverse s.toList.reverse

/-- Python's author de-duplication
`[a for i, a in enumerate(authors) if a and a not in authors[:i]]`
(rss.py line 167): keep the first occurrence of each non-empty string. -/
def pyDedupAux : List String → List String → List String
  | _, [] => []
  | seen, a :: rest =>
    if a != "" && !(seen.contains a) then a :: pyDedupAux (seen ++ [a]) rest
    else pyDedupAux (seen ++ [a]) rest

def pyDedup (l : List String) : List String := pyDedupAux [] l

/-!  ## Parsed-HTML abstractions -/

/-- A parsed HTML page as queried by the two article-text extractors, after
script/style/noscript removal.  `articleText = some s` means
`soup.find("article")` returned a truthy element with `get_text` equal to
`s`; `mainText` likewise for
`soup.find(attrs={"role": "main"}) or soup.find(id="main")`;
`pTexts` is the list of `get_text` of every `<p>`, in document order. -/
structure HtmlDoc where
  articleText : Option String
  mainText : Option String
  pTexts : List String
deriving Repr, DecidableEq

/-- scraper.extract_text, `<p>`-joining stage (lines 54-60):
`"\n\n".join(ps).strip()` when any `<p>` exists, `joined or None`. -/
def extractTextPs (doc : HtmlDoc) : Option String :=
  if doc.pTexts.isEmpty then none
  else
    let joined := pyStrip (String.intercalate "\n\n" doc.pTexts)
    if joined = "" then none else some joined

/-- scraper.extract_text, `role="main"`/`id="main"` stage (lines 47-52):
the main element's text if non-empty, else fall through to paragraphs. -/
def extractTextMain (doc : HtmlDoc) : Option String :=
  match doc.mainText with
  | some t => if t ≠ "" then some t else extractTextPs doc
  | none => extractTextPs doc

/-- scraper.extract_text (scraper.py lines 24-60): first *non-empty* text
among `<article>`, the main element and the joined paragraphs wins. -/
def extract_text (doc : HtmlDoc) : Option String :=
  match doc.articleText with
  | some t => if t ≠ "" then some t else extractTextMain doc
  | none => extractTextMain doc

/-- The text-selection portion of rss._fetch_article_content
(rss.py lines 123-137 and 169): note that, unlike scraper.extract_text,
the *presence* of an `<article>` element commits to its text even when
that text is empty (`if article: text = ... else: ...`), and likewise a
present main element commits to its text.  The final line 169 is
`text if text else None`. -/
def fetchArticleText (doc : HtmlDoc) : Option String :=
  let text :=
    match doc.articleText with
    | some t => t
    | none =>
      match doc.mainText with
      | some t => t
      | none => pyStrip (String.intercalate "\n\n" doc.pTexts)
  if text = "" then none else some text

/-!  ## Feed discovery (rss._resolve_feed_url_from_html) -/

/-- Split a character list at the first occurrence of `sep`, returning the
parts before and after it; `none` if `sep` does not occur. -/
def chSplitAux (sep : List Char) : List Char → Option (List Char × List Char)
  | [] => none
  | c :: rest =>
    if chPre sep (c :: rest) then some ([], (c :: rest).drop sep.length)
    else
      match chSplitAux sep rest with
      | some (before, post) => some (c :: before, post)
      | none => none

/-- Characters of a URL path up to and including the last slash. -/
def dirChars : List Char → Option (List Char)
  | [] => none
  | c :: rest =>
    match dirChars rest with
    | some d => some (c :: d)
    | none => if c = '/' then some ['/'] else none

/-- Model of `urllib.parse.urljoin` for the URL shapes arising in feed
discovery: an absolute base `scheme://netloc/path` joined with an absolute
URL, a scheme-relative (`//...`), host-absolute (`/...`) or relative href. -/
def urljoin (base rel : String) : String :=
  if rel = "" then base
  else if strContains rel "://" then rel
  else
    match chSplitAux "://".toList base.toList with
    | none => rel
    | some (schemeCs, restCs) =>
      let scheme := String.mk schemeCs
      let netloc := String.mk (restCs.takeWhile (· != '/'))
      let path := String.mk (restCs.drop netloc.length)
      if pyStartsWith rel "//" then scheme ++ ":" ++ rel
      else if pyStartsWith rel "/" then scheme ++ "://" ++ netloc ++ rel
      else
        let dir :=
          match dirChars path.toList with
          | some d => String.mk d
          | none => "/"
        scheme ++ "://" ++ netloc ++ dir ++ rel

/-- A `<link>` element found by `soup.find_all("link", rel=True)`: its `rel`
attribute (a list of tokens in bs4), and optional `type` and `href`
attributes (absent attribute modelled as `none`). -/
structure LinkEl where
  rel : List String
  type : Option String
  href : Option String
deriving Repr, DecidableEq

/-- An `<a>` element found by `soup.find_all("a", href=True)`. -/
structure Anchor where
  href : String
deriving Repr, DecidableEq

/-- The queries feed discovery makes of a parsed HTML page: all `<link>`
elements with a `rel` attribute and all `<a>` elements with an `href`
attribute, each in document order. -/
structure DiscoveryDoc where
  links : List LinkEl
  anchors : List Anchor
deriving Repr, DecidableEq

/-- rss.py line 84: `"alternate" in (rel or "")` after joining the rel list
with spaces. -/
def relHasAlternate (l : LinkEl) : Bool :=
  strContains (String.intercalate " " l.rel) "alternate"

/-- rss.py lines 85-86: `ltype = (link.get("type") or "").lower()` and then
`"rss" in ltype or "xml" in ltype or "atom" in ltype`. -/
def typeHasFeed (l : LinkEl) : Bool :=
  let lt := pyLower (orEmpty l.type)
  strContains lt "rss" || strContains lt "xml" || strContains lt "atom"

/-- rss.py line 95: anchor href contains `rss`, `feed` or `atom`,
case-insensitively. -/
def anchorHasTok (href : String) : Bool :=
  let h := pyLower href
  strContains h "rss" || strContains h "feed" || strContains h "atom"

/-- The `<link rel="alternate">` scan of rss.py lines 79-89: first link
whose rel contains `alternate`, whose type contains a feed token and whose
href is truthy returns `urljoin(base_url, href)`. -/
def altLoop (base : String) : List LinkEl → Option String
  | [] => none
  | l :: rest =>
    if relHasAlternate l then
      if typeHasFeed l then
        match truthy l.href with
        | some h => some (urljoin base h)
        | none => altLoop base rest
      else altLoop base rest
    else altLoop base rest

/-- rss._resolve_feed_url_from_html (rss.py lines 67-98): the alternate-link
scan, then the anchor-candidate list, returning `candidates[0]` if any. -/
def resolve_feed_url_from_html (base : String) (doc : DiscoveryDoc) : Option String :=
  match altLoop base doc.links with
  | some u => some u
  | none =>
    let candidates := doc.anchors.filterMap fun a =>
      if anchorHasTok a.href then some (urljoin base a.href) else none
    candidates.head?

/-!  ## Data model -/

/-- One parsed feed entry, abstracted to the fields parse_entries reads.
`published_parsed`/`updated_parsed` are `some t` exactly when feedparser
produced a (truthy) parsed UTC time for the field, `t` its timestamp via
`calendar.timegm` (`_struct_time_to_dt`).  `summaryText` is the
BeautifulSoup `get_text` of `getattr(e, "summary", None) or ""`;
`contentText` the `get_text` of the first content value, `""` when the
entry has no content list.  `author` is the entry's `author` attribute;
`authorNames` the name list resolved from `e.authors` (rss.py lines
207-211); `tagTerms` the term list resolved from `e.tags` (lines 214-218). -/
structure FeedEntry where
  published_parsed : Option Int
  updated_parsed : Option Int
  title : Option String
  link : Option String
  eid : Option String
  guid : Option String
  summaryText : String
  contentText : String
  author : Option String
  authorNames : List String
  tagTerms : List String
deriving Repr, DecidableEq

/-- A feedparser parse result, abstracted to its feed title and entries. -/
structure ParsedFeed where
  title : Option String
  entries : List FeedEntry
deriving Repr, DecidableEq

/-- The `data` object of one Reddit child post, with the keys the code
reads (absent key modelled as `none`). -/
structure RedditPost where
  id : Option String
  title : Option String
  permalink : Option String
  url : Option String
  created_utc : Option Int
  selftext : Option String
  author : Option String
  link_flair_text : Option String
deriving Repr, DecidableEq

/-- A Twitter oEmbed endpoint response: `text` is the BeautifulSoup
`get_text` of its `html` fragment; the two author fields are as returned. -/
structure OEmbedData where
  text : String
  author_name : Option String
  author_url : Option String
deriving Repr, DecidableEq

/-- An article page as consumed by rss._fetch_article_content: the parsed
document for text selection, plus `authorsRaw`, the author strings its
heuristics collect (meta tags, rel=author, byline selectors; rss.py lines
139-164) before the final de-duplication of line 167. -/
structure ArticlePage where
  doc : HtmlDoc
  authorsRaw : List String
deriving Repr, DecidableEq

/-- The normalized record every producer emits (the Python dict with keys
id/title/link/published/summary/content/authors/tags/source/fetched_at).
`published` is `some t` for an ISO-8601 UTC string with timestamp `t`
(see the header comment), `none` for Python `None`. -/
structure NormalizedRecord where
  id : Option String
  title : Option String
  link : Option String
  published : Option Int
  summary : Option String
  content : String
  authors : List String
  tags : List String
  source : Option String
  fetched_at : Int
deriving Repr, DecidableEq

/-- The network/parsing oracles of one run.  `.error` models a raised
exception in the corresponding fetch; `.ok` a successful fetch-and-parse:
`fetchFeed` for rss.fetch_feed, `articlePage` for the GET+parse of
rss._fetch_article_content, `fetchHtmlDoc` for scraper.fetch_html
followed by BeautifulSoup parsing, `subredditChildren` for the listing
GET+JSON of fetch_reddit_subreddit (the children `data` objects),
`postJson` for the GET+JSON+shape-extraction of fetch_reddit_post
(`.ok none` when no post data is found), `oembed` for the oEmbed GET. -/
structure Env where
  fetchFeed : String → Except String ParsedFeed
  articlePage : String → Except String ArticlePage
  fetchHtmlDoc : String → Except String HtmlDoc
  subredditChildren : String → Except String (List RedditPost)
  postJson : String → Except String (Option RedditPost)
  oembed : String → Except String OEmbedData

/-!  ## Entry normalization (rss.parse_entries) -/

/-- rss._fetch_article_content (rss.py lines 101-169): fetch and parse the
page (the `articlePage` oracle), select text by `fetchArticleText`, and
de-duplicate the collected author strings (line 167). -/
def fetchArticleContent (env : Env) (url : String) : Except String (Option String × List String) :=
  match env.articlePage url with
  | .error e => .error e
  | .ok p => .ok (fetchArticleText p.doc, pyDedup p.authorsRaw)

/-- rss.py line 221:
`getattr(e, "id", getattr(e, "guid", None) or getattr(e, "link", None))`. -/
def recId (e : FeedEntry) : Option String :=
  match e.eid with
  | some i => some i
  | none =>
    match truthy e.guid with
    | some g => some g
    | none => e.link

/-- rss.py lines 204-211: `[e.author]` when the entry's `author` attribute
is truthy, else the names resolved from `e.authors`. -/
def entryAuthors (e : FeedEntry) : List String :=
  match truthy e.author with
  | some a => [a]
  | none => e.authorNames

/-- rss.py lines 236-237: `if article_text: normalized["content"] = article_text`. -/
def applyPageText (r : NormalizedRecord) : Option String → NormalizedRecord
  | some t => if t ≠ "" then { r with content := t } else r
  | none => r

/-- rss.py lines 238-239:
`if not authors and page_authors: normalized["authors"] = page_authors`,
where `authors` is the entry-level author list (equal to the record's
authors as built, since the content update does not touch them). -/
def applyPageAuthors (entryLevel : List String) (r1 : NormalizedRecord)
    (pageAuthors : List String) : NormalizedRecord :=
  if entryLevel = [] ∧ pageAuthors ≠ [] then { r1 with authors := pageAuthors } else r1

/-- rss.py lines 232-242: the secondary article-page fetch performed when
the entry-level content is empty and a link is present.  `content` is
overwritten only by a truthy fetched text, `authors` only when the
entry-level list was empty and the page yielded authors; any exception in
the fetch leaves the record as built. -/
def articleFallback (env : Env) (r : NormalizedRecord) : NormalizedRecord :=
  if r.content = "" then
    match truthy r.link with
    | some link =>
      match fetchArticleContent env link with
      | .ok (textOpt, pageAuthors) =>
        applyPageAuthors r.authors (applyPageText r textOpt) pageAuthors
      | .error _ => r
    | none => r
  else r

/-- The body of the rss.parse_entries loop for one entry (rss.py lines
182-244): prefer `published_parsed`, fall back to `updated_parsed`, drop
the entry (`continue`) when neither is available, otherwise build the
normalized record and apply the article fallback.  `now` is the
`datetime.now(timezone.utc)` taken at the start of the call. -/
def normalizeEntry (env : Env) (now : Int) (feed_title : Option String)
    (e : FeedEntry) : Option NormalizedRecord :=
  let published_dt : Option Int :=
    match e.published_parsed with
    | some t => some t
    | none => e.updated_parsed
  match published_dt with
  | none => none
  | some pub =>
    let base : NormalizedRecord := {
      id := recId e
      title := some (e.title.getD "")
      link := e.link
      published := some pub
      summary := some e.summaryText
      content := e.contentText
      authors := entryAuthors e
      tags := e.tagTerms
      source := feed_title
      fetched_at := now }
    some (articleFallback env base)

/-- rss.parse_entries (rss.py lines 172-246): each entry contributes its
normalized record, or nothing when it is dropped. -/
def parse_entries (env : Env) (now : Int) (entries : List FeedEntry)
    (feed_title : Option String) : List NormalizedRecord :=
  entries.filterMap (normalizeEntry env now feed_title)

/-- The recency predicate of rss.py line 262:
`datetime.fromisoformat(e["published"]) >= cutoff`. -/
def recentPred (cutoff : Int) (r : NormalizedRecord) : Bool :=
  match r.published with
  | some t => decide (cutoff ≤ t)
  | none => false

/-- rss.fetch_recent (rss.py lines 249-263): fetch and parse the feed
(errors propagate), normalize its entries, and keep the records published
at or after `now - hours` (`timedelta(hours=hours)` = `hours * 3600`
seconds). -/
def fetch_recent (env : Env) (now hours : Int) (url : String) :
    Except String (List NormalizedRecord) :=
  match env.fetchFeed url with
  | .error e => .error e
  | .ok feed =>
    let normalized := parse_entries env now feed.entries feed.title
    let cutoff := now - hours * 3600
    .ok (normalized.filter (recentPred cutoff))

/-!  ## Reddit client (social.py) -/

/-- social.py line 47/116: `f"https://reddit.com{permalink}"` when the
permalink is truthy, else the post's `url` field. -/
def redditLink (d : RedditPost) : Option String :=
  match truthy d.permalink with
  | some p => some ("https://reddit.com" ++ p)
  | none => d.url

/-- social.py lines 57-67 (and 126-136): when the built item has no
content and the post's `url` is truthy, fetch the linked page and run
scraper.extract_text; set `content` only to a truthy text; swallow any
failure. -/
def redditContentFallback (env : Env) (d : RedditPost) (r : NormalizedRecord) :
    NormalizedRecord :=
  if r.content = "" then
    match truthy d.url with
    | some u =>
      match env.fetchHtmlDoc u with
      | .ok doc =>
        match extract_text doc with
        | some t => if t ≠ "" then { r with content := t } else r
        | none => r
      | .error _ => r
    | none => r
  else r

/-- One child of the subreddit listing (social.py lines 41-69):
`created = datetime.fromtimestamp(d.get("created_utc", 0), tz=utc)` and
`"published": created.isoformat()`; `fetched_at` is the fetch time. -/
def normalizeRedditChild (env : Env) (now : Int) (subreddit : String)
    (d : RedditPost) : NormalizedRecord :=
  let created := d.created_utc.getD 0
  let item : NormalizedRecord := {
    id := d.id
    title := some (orEmpty d.title)
    link := redditLink d
    published := some created
    summary := some (orEmpty d.selftext)
    content := orEmpty d.selftext
    authors := match truthy d.author with | some a => [a] | none => []
    tags := match truthy d.link_flair_text with | some t => [t] | none => []
    source := some ("reddit:" ++ subreddit)
    fetched_at := now }
  redditContentFallback env d item

/-- social.fetch_reddit_subreddit (social.py lines 27-71): the listing GET
may raise (propagated); each child is normalized in order. -/
def fetch_reddit_subreddit (env : Env) (now : Int) (subreddit : String) :
    Except String (List NormalizedRecord) :=
  match env.subredditChildren subreddit with
  | .error e => .error e
  | .ok children => .ok (children.map (normalizeRedditChild env now subreddit))

/-- The single-post normalization of social.fetch_reddit_post (social.py
lines 112-137), identical to the listing case but with source
`"reddit:post"`. -/
def normalizeRedditPostData (env : Env) (now : Int) (d : RedditPost) :
    NormalizedRecord :=
  let created := d.created_utc.getD 0
  let item : NormalizedRecord := {
    id := d.id
    title := some (orEmpty d.title)
    link := redditLink d
    published := some created
    summary := some (orEmpty d.selftext)
    content := orEmpty d.selftext
    authors := match truthy d.author with | some a => [a] | none => []
    tags := match truthy d.link_flair_text with | some t => [t] | none => []
    source := some "reddit:post"
    fetched_at := now }
  redditContentFallback env d item

/-- social.py lines 82-85: normalize the post URL to its `.json` form,
stripping one trailing slash first. -/
def jsonizeUrl (u : String) : String :=
  if pyEndsWith u ".json" then u
  else (if pyEndsWith u "/" then u.dropRight 1 else u) ++ ".json"

/-- social.fetch_reddit_post (social.py lines 74-142): every network or
parse failure, and the no-post-data case, yields `[]` rather than
raising. -/
def fetch_reddit_post (env : Env) (now : Int) (post_url : String) :
    List NormalizedRecord :=
  let u := jsonizeUrl post_url
  match env.postJson u with
  | .error _ => []
  | .ok none => []
  | .ok (some d) => [normalizeRedditPostData env now d]

/-!  ## Twitter oEmbed client (social.py) -/

/-- The item built by social.fetch_x_oembed (social.py lines 171-182):
`title` is `text[:120]`, `published` is `None`, authors are
`[author_name] if author_name else ([] if not author_url else [author_url])`. -/
def xItem (now : Int) (tweet_url : String) (d : OEmbedData) : NormalizedRecord := {
  id := none
  title := some (d.text.take 120)
  link := some tweet_url
  published := none
  summary := some d.text
  content := d.text
  authors :=
    match truthy d.author_name with
    | some n => [n]
    | none =>
      match truthy d.author_url with
      | some u => [u]
      | none => []
  tags := []
  source := some "x"
  fetched_at := now }

/-- social.fetch_x_oembed (social.py lines 145-184): the oEmbed GET may
raise (propagated to the wrapper). -/
def fetch_x_oembed (env : Env) (now : Int) (tweet_url : String) :
    Except String NormalizedRecord :=
  match env.oembed tweet_url with
  | .error e => .error e
  | .ok d => .ok (xItem now tweet_url d)

/-- social.fetch_x_status (social.py lines 187-192): any exception yields
`None`. -/
def fetch_x_status (env : Env) (now : Int) (tweet_url : String) :
    Option NormalizedRecord :=
  match fetch_x_oembed env now tweet_url with
  | .ok r => some r
  | .error _ => none

/-!  ## Orchestrator (social.collect_from_urls) -/

/-- social.py line 227: the Reddit-path condition on the lowercased URL. -/
def isRedditUrl (lower : String) : Bool :=
  strContains lower "reddit.com" || strContains lower "redd.it" || pyStartsWith lower "r/"

/-- social.py line 247: the Twitter-path condition on the lowercased URL. -/
def isTwitterUrl (lower : String) : Bool :=
  strContains lower "twitter.com" || strContains lower "x.com"

/-- The subreddit extraction of social.py line 238:
`re.search(r"reddit\.com/r/([^/]+)/?", lower)` — the leftmost position at
which the literal `reddit.com/r/` occurs followed by at least one
non-slash character, capturing that non-slash run. -/
def subredditScan : List Char → Option String
  | [] => none
  | c :: rest =>
    if chPre "reddit.com/r/".toList (c :: rest) then
      let after := (c :: rest).drop 13
      let name := after.takeWhile (· != '/')
      if name.isEmpty then subredditScan rest else some (String.mk name)
    else subredditScan rest

def extractSubreddit (lower : String) : Option String := subredditScan lower.toList

/-- The generic-path last resort of social.py lines 260-279: fetch the raw
page, extract its text, and build a single record with `published` and
`fetched_at` both set to now; any failure yields no items. -/
def htmlFallbackItems (env : Env) (now : Int) (url : String) : List NormalizedRecord :=
  match env.fetchHtmlDoc url with
  | .error _ => []
  | .ok doc =>
    match extract_text doc with
    | some text =>
      if text ≠ "" then
        [{ id := some url, title := none, link := some url, published := some now,
           summary := none, content := text, authors := [], tags := [],
           source := some url, fetched_at := now }]
      else []
    | none => []

/-- The per-URL dispatch chain of social.collect_from_urls (social.py lines
222-279), as the computation whose uncaught exceptions reach the per-URL
`except` of line 283.  fetch_reddit_post and fetch_x_status swallow their
own failures; the subreddit-listing fetch propagates; on the generic path
an exception from fetch_recent is caught and the HTML fallback tried, whose
own failure is also caught in place. -/
def dispatchUrl (env : Env) (now hours : Int) (url : String) :
    Except String (List NormalizedRecord) :=
  let lower := pyLower url
  if isRedditUrl lower then
    if strContains lower "/comments/" then
      .ok (fetch_reddit_post env now url)
    else
      match extractSubreddit lower with
      | some sub => fetch_reddit_subreddit env now sub
      | none => .ok []
  else if isTwitterUrl lower then
    .ok (match fetch_x_status env now url with
         | some item => [item]
         | none => [])
  else
    match fetch_recent env now hours url with
    | .ok items => .ok items
    | .error _ => .ok (htmlFallbackItems env now url)

/-- One loop iteration of collect_from_urls: the outer `except Exception`
of social.py line 283 turns an uncaught per-URL exception into zero
contributed records. -/
def collectOne (env : Env) (now hours : Int) (url : String) : List NormalizedRecord :=
  match dispatchUrl env now hours url with
  | .ok items => items
  | .error _ => []

/-- social.collect_from_urls (social.py lines 210-286): the loop extending
`combined` with each URL's items (`items or []` equals `items` on lists). -/
def collect_from_urls (env : Env) (now hours : Int) (urls : List String) :
    List NormalizedRecord :=
  urls.foldl (fun combined url => combined ++ collectOne env now hours url) []

/-!  ## CLI fetch tool (scripts/fetch_rss.py) -/

/-- The inputs that determine the CLI's URL list: the repeated `--url`
values, whether stdin is a TTY, the lines of piped stdin, and the
successive `input()` results of an interactive session (ended by EOF). -/
structure CliInput where
  urlArgs : List String
  stdinIsTty : Bool
  stdinLines : List String
  interactiveLines : List String
deriving Repr, DecidableEq

/-- fetch_rss.py lines 24-42: `--url` values if any; else, when stdin is
piped, its stripped non-empty lines; else the interactive lines, stripped,
up to the first empty one (or EOF). -/
def resolveUrls (inp : CliInput) : List String :=
  if !inp.urlArgs.isEmpty then inp.urlArgs
  else if !inp.stdinIsTty then
    (inp.stdinLines.map pyStrip).filter (fun l => l != "")
  else
    (inp.interactiveLines.map pyStrip).takeWhile (fun l => l != "")

/-- fetch_rss.main (fetch_rss.py lines 16-61): exit code and the combined
records written to the output file.  With no URLs it returns 2 before
fetching; otherwise each per-URL fetch_recent failure is logged and
skipped, and the function returns 0. -/
def cliMain (env : Env) (now hours : Int) (inp : CliInput) :
    Nat × List NormalizedRecord :=
  let urls := resolveUrls inp
  if urls.isEmpty then (2, [])
  else
    let combined := urls.foldl (fun acc u =>
      match fetch_recent env now hours u with
      | .ok items => acc ++ items
      | .error _ => acc) []
    (0, combined)

/-!  ## Concrete fixtures (used by witnesses and counterexamples) -/

/-- An environment in which every network fetch raises. -/
def envEmpty : Env := {
  fetchFeed := fun _ => .error "net"
  articlePage := fun _ => .error "net"
  fetchHtmlDoc := fun _ => .error "net"
  subredditChildren := fun _ => .error "net"
  postJson := fun _ => .error "net"
  oembed := fun _ => .error "net" }

/-- A feed entry with neither a parseable published nor updated time. -/
def entryNone : FeedEntry := {
  published_parsed := none, updated_parsed := none, title := some "No Date"
  link := some "http://example.com/none", eid := none, guid := none
  summaryText := "s", contentText := "c", author := none
  authorNames := [], tagTerms := [] }

/-- An entry published at timestamp 0. -/
def entryOld : FeedEntry := {
  published_parsed := some 0, updated_parsed := none, title := some "Old"
  link := some "http://example.com/old", eid := some "old", guid := none
  summaryText := "old summary", contentText := "old body", author := some "ann"
  authorNames := [], tagTerms := [] }

/-- An entry published at timestamp 10000. -/
def entryNew : FeedEntry := {
  published_parsed := some 10000, updated_parsed := none, title := some "New"
  link := some "http://example.com/new", eid := some "new", guid := none
  summaryText := "new summary", contentText := "new body", author := some "bob"
  authorNames := [], tagTerms := [] }

def feedW : ParsedFeed := { title := some "Feed W", entries := [entryOld, entryNew] }

def envFeedW : Env := { envEmpty with fetchFeed := fun _ => .ok feedW }

/-- The records fetch_recent produces from `feedW` at now = 10000 with a
one-hour window (cutoff 6400): only the entry at 10000 survives. -/
def recsW : List NormalizedRecord :=
  (parse_entries envFeedW 10000 feedW.entries feedW.title).filter
    (recentPred (10000 - 1 * 3600))

def rNewW : NormalizedRecord :=
  (normalizeEntry envFeedW 10000 (some "Feed W") entryNew).getD
    { id := none, title := none, link := none, published := none, summary := none,
      content := "", authors := [], tags := [], source := none, fetched_at := 0 }

/-- A Reddit post created at timestamp 100 with self-text. -/
def postW : RedditPost := {
  id := some "abc1", title := some "Post", permalink := some "/r/news/comments/abc1/post/"
  url := none, created_utc := some 100, selftext := some "self text"
  author := some "alice", link_flair_text := none }

def envRedW : Env := { envEmpty with subredditChildren := fun _ => .ok [postW] }

/-- An environment whose single-post JSON endpoint returns `postW`. -/
def envPostW : Env := { envEmpty with postJson := fun _ => .ok (some postW) }

def oembedW : OEmbedData :=
  { text := "hello world", author_name := some "alice", author_url := none }

def envTwW : Env := { envEmpty with oembed := fun _ => .ok oembedW }

/-- A built record with empty content and no link, for frame witnesses. -/
def recW : NormalizedRecord := {
  id := some "i", title := some "t", link := none, published := some 1,
  summary := some "s", content := "", authors := [], tags := ["x"],
  source := some "src", fetched_at := 7 }

/-- CLI inputs with no URLs from any source. -/
def inpNone : CliInput :=
  { urlArgs := [], stdinIsTty := true, stdinLines := [], interactiveLines := [] }

/-- CLI inputs with one `--url`. -/
def inpOne : CliInput :=
  { urlArgs := ["http://example.com/feed"], stdinIsTty := true,
    stdinLines := [], interactiveLines := [] }

/-!  ## Helper lemmas -/

lemma articleFallback_id (env : Env) (r : NormalizedRecord) :
    (articleFallback env r).id = r.id := by
  unfold articleFallback applyPageAuthors applyPageText
  repeat' (first | rfl | split)

lemma articleFallback_title (env : Env) (r : NormalizedRecord) :
    (articleFallback env r).title = r.title := by
  unfold articleFallback applyPageAuthors applyPageText
  repeat' (first | rfl | split)

lemma articleFallback_link (env : Env) (r : NormalizedRecord) :
    (articleFallback env r).link = r.link := by
  unfold articleFallback applyPageAuthors applyPageText
  repeat' (first | rfl | split)

lemma articleFallback_published (env : Env) (r : NormalizedRecord) :
    (articleFallback env r).published = r.published := by
  unfold articleFallback applyPageAuthors applyPageText
  repeat' (first | rfl | split)

lemma articleFallback_summary (env : Env) (r : NormalizedRecord) :
    (articleFallback env r).summary = r.summary := by
  unfold articleFallback applyPageAuthors applyPageText
  repeat' (first | rfl | split)

lemma articleFallback_tags (env : Env) (r : NormalizedRecord) :
    (articleFallback env r).tags = r.tags := by
  unfold articleFallback applyPageAuthors applyPageText
  repeat' (first | rfl | split)

lemma articleFallback_source (env : Env) (r : NormalizedRecord) :
    (articleFallback env r).source = r.source := by
  unfold articleFallback applyPageAuthors applyPageText
  repeat' (first | rfl | split)

lemma articleFallback_fetched_at (env : Env) (r : NormalizedRecord) :
    (articleFallback env r).fetched_at = r.fetched_at := by
  unfold articleFallback applyPageAuthors applyPageText
  repeat' (first | rfl | split)

lemma redditContentFallback_published (env : Env) (d : RedditPost)
    (r : NormalizedRecord) : (redditContentFallback env d r).published = r.published := by
  unfold redditContentFallback
  repeat' (first | rfl | split)

lemma redditContentFallback_fetched_at (env : Env) (d : RedditPost)
    (r : NormalizedRecord) : (redditContentFallback env d r).fetched_at = r.fetched_at := by
  unfold redditContentFallback
  repeat' (first | rfl | split)

lemma foldl_append_eq_join {α β : Type} (f : α → List β) (l : List α)
    (init : List β) :
    l.foldl (fun acc a => acc ++ f a) init = init ++ (l.map f).flatten := by
  induction l generalizing init with
  | nil => simp
  | cons a as ih => simp [ih, List.append_assoc]

lemma normalizeEntry_published (env : Env) (now : Int) (ft : Option String)
    (e : FeedEntry) (r : NormalizedRecord)
    (h : normalizeEntry env now ft e = some r) :
    ∃ t : Int, r.published = some t ∧
      (e.published_parsed = some t ∨
        (e.published_parsed = none ∧ e.updated_parsed = some t)) := by
  unfold normalizeEntry at h
  cases hp : e.published_parsed with
  | some t =>
    rw [hp] at h
    simp only [Option.some.injEq] at h
    refine ⟨t, ?_, Or.inl rfl⟩
    rw [← h, articleFallback_published]
  | none =>
    rw [hp] at h
    cases hu : e.updated_parsed with
    | some t =>
      rw [hu] at h
      simp only [Option.some.injEq] at h
      refine ⟨t, ?_, Or.inr ⟨rfl, rfl⟩⟩
      rw [← h, articleFallback_published]
    | none => rw [hu] at h; exact absurd h (by simp)

lemma applyPageAuthors_content (ea : List String) (r1 : NormalizedRecord)
    (pa : List String) : (applyPageAuthors ea r1 pa).content = r1.content := by
  unfold applyPageAuthors; split <;> rfl

lemma applyPageText_authors (r : NormalizedRecord) (topt : Option String) :
    (applyPageText r topt).authors = r.authors := by
  unfold applyPageText
  repeat' (first | rfl | split)

lemma applyPageText_content_eq (r : NormalizedRecord) (topt : Option String) :
    (applyPageText r topt).content = r.content
    ∨ ∃ t, topt = some t ∧ t ≠ "" ∧ (applyPageText r topt).content = t := by
  cases topt with
  | none => exact Or.inl rfl
  | some t =>
    by_cases ht : t = ""
    · left; simp [applyPageText, ht]
    · right; exact ⟨t, rfl, ht, by simp [applyPageText, ht]⟩

lemma applyPageAuthors_authors (ea : List String) (r1 : NormalizedRecord)
    (pa : List String) :
    (applyPageAuthors ea r1 pa).authors = r1.authors
    ∨ (ea = [] ∧ pa ≠ [] ∧ (applyPageAuthors ea r1 pa).authors = pa) := by
  by_cases h : ea = [] ∧ pa ≠ []
  · right; exact ⟨h.1, h.2, by unfold applyPageAuthors; rw [if_pos h]⟩
  · left; unfold applyPageAuthors; rw [if_neg h]

lemma articleFallback_content (env : Env) (r : NormalizedRecord) :
    (articleFallback env r).content = r.content
    ∨ ∃ link t authors2, truthy r.link = some link ∧ r.content = ""
        ∧ fetchArticleContent env link = .ok (some t, authors2) ∧ t ≠ ""
        ∧ (articleFallback env r).content = t := by
  unfold articleFallback
  split
  · next h0 =>
    split
    · next link hl =>
      split
      · next textOpt pageAuthors hf =>
        rw [applyPageAuthors_content]
        rcases applyPageText_content_eq r textOpt with h | ⟨t, hto, ht, hct⟩
        · exact Or.inl h
        · subst hto
          exact Or.inr ⟨link, t, pageAuthors, hl, h0, hf, ht, hct⟩
      · exact Or.inl rfl
    · exact Or.inl rfl
  · exact Or.inl rfl

lemma articleFallback_authors (env : Env) (r : NormalizedRecord) :
    (articleFallback env r).authors = r.authors
    ∨ (r.authors = [] ∧ ∃ link textOpt authors2, truthy r.link = some link
        ∧ r.content = ""
        ∧ fetchArticleContent env link = .ok (textOpt, authors2) ∧ authors2 ≠ []
        ∧ (articleFallback env r).authors = authors2) := by
  unfold articleFallback
  split
  · next h0 =>
    split
    · next link hl =>
      split
      · next textOpt pageAuthors hf =>
        rcases applyPageAuthors_authors r.authors (applyPageText r textOpt)
            pageAuthors with h | ⟨hea, hpa, hset⟩
        · left; rw [h, applyPageText_authors]
        · right
          exact ⟨hea, link, textOpt, pageAuthors, hl, h0, hf, hpa, hset⟩
      · exact Or.inl rfl
    · exact Or.inl rfl
  · exact Or.inl rfl

lemma recentPred_iff (cutoff : Int) (r : NormalizedRecord) :
    recentPred cutoff r = true ↔ ∃ t, r.published = some t ∧ cutoff ≤ t := by
  cases h : r.published with
  | none => simp [recentPred, h]
  | some t => simp [recentPred, h]

/-- The condition under which the alternate-link loop of
rss._resolve_feed_url_from_html accepts a `<link>` element. -/
def isAltFeedLink (l : LinkEl) : Bool :=
  relHasAlternate l && (typeHasFeed l && (truthy l.href).isSome)

lemma altLoop_eq_find (base : String) (links : List LinkEl) :
    altLoop base links = (links.find? isAltFeedLink).map
      (fun l => urljoin base ((truthy l.href).getD "")) := by
  induction links with
  | nil => simp [altLoop]
  | cons l ls ih =>
    cases h1 : relHasAlternate l
    · have hnot : isAltFeedLink l = false := by simp [isAltFeedLink, h1]
      simp [altLoop, h1, List.find?, hnot, ih]
    · cases h2 : typeHasFeed l
      · have hnot : isAltFeedLink l = false := by simp [isAltFeedLink, h1, h2]
        simp [altLoop, h1, h2, List.find?, hnot, ih]
      · cases h3 : truthy l.href with
        | none =>
          have hnot : isAltFeedLink l = false := by simp [isAltFeedLink, h1, h2, h3]
          simp [altLoop, h1, h2, h3, List.find?, hnot, ih]
        | some h =>
          have hyes : isAltFeedLink l = true := by simp [isAltFeedLink, h1, h2, h3]
          simp [altLoop, h1, h2, h3, List.find?, hyes]

lemma head?_filterMap_find {α β : Type} (p : α → Bool) (g : α → β) (l : List α) :
    (l.filterMap fun a => if p a then some (g a) else none).head?
      = (l.find? p).map g := by
  induction l with
  | nil => simp
  | cons a as ih =>
    cases h : p a <;> simp [List.filterMap_cons, List.find?, h, ih]

/-!  ## Claim theorems -/

/-- C1: rss.parse_entries drops every entry that has neither a parseable
`published` nor a parseable `updated` timestamp (it contributes no record
to the output), and every emitted record has a present `published` field —
in this embedding `some t`, standing for the non-empty ISO-8601 UTC
rendering of timestamp `t` — where `t` is the entry's published time or,
failing that, its updated time. -/
theorem parse_entries_timestamp_policy (env : Env) (now : Int)
    (ft : Option String) (entries : List FeedEntry) :
    (∀ e ∈ entries, e.published_parsed = none → e.updated_parsed = none →
        normalizeEntry env now ft e = none)
    ∧ ∀ r ∈ parse_entries env now entries ft, ∃ e ∈ entries, ∃ t : Int,
        r.published = some t ∧
        (e.published_parsed = some t ∨
          (e.published_parsed = none ∧ e.updated_parsed = some t)) := by
  constructor
  · intro e _ hp hu
    simp [normalizeEntry, hp, hu]
  · intro r hr
    simp only [parse_entries, List.mem_filterMap] at hr
    obtain ⟨e, he, hne⟩ := hr
    obtain ⟨t, ht, hor⟩ := normalizeEntry_published env now ft e r hne
    exact ⟨e, he, t, ht, hor⟩

/-- C1 witness: the dateless entry `entryNone` is dropped. -/
theorem parse_entries_timestamp_policy_witness :
    normalizeEntry envEmpty 0 none entryNone = none :=
  (parse_entries_timestamp_policy envEmpty 0 none [entryNone]).1 entryNone
    (by simp) rfl rfl

/-- C2: collect_from_urls processes the URL list in order and returns the
concatenation of each URL's own results (each produced by one dispatch,
`collectOne`); a URL whose dispatch chain raises an exception that reaches
the per-URL handler contributes zero records, leaving every other URL's
contribution untouched; the function is total — no exception escapes. -/
theorem collect_from_urls_contract (env : Env) (now hours : Int)
    (urls : List String) :
    collect_from_urls env now hours urls
      = (urls.map (collectOne env now hours)).flatten
    ∧ ∀ url err, dispatchUrl env now hours url = .error err →
        collectOne env now hours url = [] := by
  constructor
  · simp only [collect_from_urls]
    simpa using foldl_append_eq_join (collectOne env now hours) urls []
  · intro url err h
    simp [collectOne, h]

/-- C2 witness: with the subreddit-listing fetch raising, the reddit URL
contributes zero records and the combined output is empty. -/
theorem collect_from_urls_contract_witness :
    collectOne envEmpty 0 24 "https://reddit.com/r/news/" = []
    ∧ collect_from_urls envEmpty 0 24 ["https://reddit.com/r/news/"] = [] := by
  have h := collect_from_urls_contract envEmpty 0 24 ["https://reddit.com/r/news/"]
  have h2 : collectOne envEmpty 0 24 "https://reddit.com/r/news/" = [] :=
    h.2 "https://reddit.com/r/news/" "net" (by decide)
  exact ⟨h2, by rw [h.1]; simp [h2]⟩

/-- C10: the secondary article-page fetch of parse_entries modifies at most
`content` and `authors` of the already-built record: all other fields are
unchanged; `content` is overwritten only by a non-empty text from a
successful page fetch on the record's link; `authors` is overwritten only
from that page, and only when the entry-level author list was empty. -/
theorem articleFallback_frame_claim (env : Env) (r : NormalizedRecord) :
    ((articleFallback env r).id = r.id
      ∧ (articleFallback env r).title = r.title
      ∧ (articleFallback env r).link = r.link
      ∧ (articleFallback env r).published = r.published
      ∧ (articleFallback env r).summary = r.summary
      ∧ (articleFallback env r).tags = r.tags
      ∧ (articleFallback env r).source = r.source
      ∧ (articleFallback env r).fetched_at = r.fetched_at)
    ∧ ((articleFallback env r).content ≠ r.content →
        ∃ link t authors2, truthy r.link = some link ∧ r.content = ""
          ∧ fetchArticleContent env link = .ok (some t, authors2)
          ∧ t ≠ "" ∧ (articleFallback env r).content = t)
    ∧ ((articleFallback env r).authors ≠ r.authors →
        r.authors = [] ∧ ∃ link textOpt authors2,
          truthy r.link = some link ∧ r.content = ""
          ∧ fetchArticleContent env link = .ok (textOpt, authors2)
          ∧ authors2 ≠ [] ∧ (articleFallback env r).authors = authors2) := by
  refine ⟨⟨articleFallback_id env r, articleFallback_title env r,
      articleFallback_link env r, articleFallback_published env r,
      articleFallback_summary env r, articleFallback_tags env r,
      articleFallback_source env r, articleFallback_fetched_at env r⟩, ?_, ?_⟩
  · intro hc
    rcases articleFallback_content env r with h | h
    · exact absurd h hc
    · exact h
  · intro ha
    rcases articleFallback_authors env r with h | h
    · exact absurd h ha
    · exact h

/-- C10 witness: the fallback step leaves the frame fields of `recW`
unchanged. -/
theorem articleFallback_frame_claim_witness :
    (articleFallback envEmpty recW).id = recW.id
    ∧ (articleFallback envEmpty recW).published = recW.published
    ∧ (articleFallback envEmpty recW).fetched_at = recW.fetched_at := by
  have h := (articleFallback_frame_claim envEmpty recW).1
  exact ⟨h.1, h.2.2.2.1, h.2.2.2.2.2.2.2⟩

/-- C3: fetch_recent keeps exactly the normalized records whose `published`
is at or after `now - hours`, excluding all strictly earlier ones; the
recency filter exists only on the generic feed path — both Reddit
sub-paths of the orchestrator (the subreddit listing and the `/comments/`
single-post fetch) and the Twitter branch hand the producer's records
through unfiltered, whatever their `published` values. -/
theorem fetch_recent_recency (env : Env) (now hours : Int) (url : String) :
    (∀ feed recs, env.fetchFeed url = .ok feed →
        fetch_recent env now hours url = .ok recs →
        ∀ r, r ∈ recs ↔ r ∈ parse_entries env now feed.entries feed.title
              ∧ ∃ t, r.published = some t ∧ now - hours * 3600 ≤ t)
    ∧ (∀ sub children, isRedditUrl (pyLower url) = true →
        strContains (pyLower url) "/comments/" = false →
        extractSubreddit (pyLower url) = some sub →
        env.subredditChildren sub = .ok children →
        collectOne env now hours url
          = children.map (normalizeRedditChild env now sub))
    ∧ (∀ d, isRedditUrl (pyLower url) = true →
        strContains (pyLower url) "/comments/" = true →
        env.postJson (jsonizeUrl url) = .ok (some d) →
        collectOne env now hours url = [normalizeRedditPostData env now d])
    ∧ (∀ d, isRedditUrl (pyLower url) = false →
        isTwitterUrl (pyLower url) = true →
        env.oembed url = .ok d →
        collectOne env now hours url = [xItem now url d]) := by
  refine ⟨?_, ?_, ?_, ?_⟩
  · intro feed recs hfeed hrec r
    simp only [fetch_recent, hfeed, Except.ok.injEq] at hrec
    rw [← hrec, List.mem_filter, recentPred_iff]
  · intro sub children hred hcom hsub hch
    simp [collectOne, dispatchUrl, fetch_reddit_subreddit, hred, hcom, hsub, hch]
  · intro d hred hcom hpj
    simp [collectOne, dispatchUrl, fetch_reddit_post, hred, hcom, hpj]
  · intro d hnred htw hoe
    simp [collectOne, dispatchUrl, fetch_x_status, fetch_x_oembed, hnred, htw, hoe]

/-- C3 witness: the surviving feed record satisfies the cutoff
characterization, and concrete subreddit-listing, single-post and Twitter
URLs pass their producers' records through without any recency
filtering. -/
theorem fetch_recent_recency_witness :
    (rNewW ∈ recsW ↔ rNewW ∈ parse_entries envFeedW 10000 feedW.entries feedW.title
        ∧ ∃ t, rNewW.published = some t ∧ 10000 - 1 * 3600 ≤ t)
    ∧ collectOne envRedW 5 24 "https://reddit.com/r/news/"
        = [postW].map (normalizeRedditChild envRedW 5 "news")
    ∧ collectOne envPostW 5 24 "https://reddit.com/r/news/comments/abc1/post/"
        = [normalizeRedditPostData envPostW 5 postW]
    ∧ collectOne envTwW 5 24 "https://x.com/a/status/1"
        = [xItem 5 "https://x.com/a/status/1" oembedW] := by
  refine ⟨?_, ?_, ?_, ?_⟩
  · exact (fetch_recent_recency envFeedW 10000 1 "http://feeds.example/f").1
      feedW recsW rfl rfl rNewW
  · exact (fetch_recent_recency envRedW 5 24 "https://reddit.com/r/news/").2.1
      "news" [postW] (by decide) (by decide) (by decide) rfl
  · exact (fetch_recent_recency envPostW 5 24
      "https://reddit.com/r/news/comments/abc1/post/").2.2.1
      postW (by decide) (by decide) rfl
  · exact (fetch_recent_recency envTwW 5 24 "https://x.com/a/status/1").2.2.2
      oembedW (by decide) (by decide) rfl

/-- The HTML page of the spec's discovery example,
`<link rel="alternate" type="application/rss+xml" href="/feed.xml">`
and no anchors. -/
def exampleDiscovery : DiscoveryDoc :=
  { links := [{ rel := ["alternate"], type := some "application/rss+xml",
                href := some "/feed.xml" }],
    anchors := [] }

/-- C4: HTML feed discovery first returns the resolved href of the first
link element (in document order) with relation `alternate`, a type
containing `rss`/`xml`/`atom` and a present href; only when no such link
exists does it return the first anchor whose href contains
`rss`/`feed`/`atom` case-insensitively, resolved against the base URL.  In
particular the page at https://example.com/page with
`<link rel="alternate" type="application/rss+xml" href="/feed.xml">`
resolves to https://example.com/feed.xml. -/
theorem feed_discovery_order (base : String) (doc : DiscoveryDoc) :
    (resolve_feed_url_from_html base doc
      = match doc.links.find? isAltFeedLink with
        | some l => some (urljoin base ((truthy l.href).getD ""))
        | none => (doc.anchors.find? fun a => anchorHasTok a.href).map
            fun a => urljoin base a.href)
    ∧ resolve_feed_url_from_html "https://example.com/page" exampleDiscovery
        = some "https://example.com/feed.xml" := by
  constructor
  · rw [resolve_feed_url_from_html, altLoop_eq_find]
    cases h : doc.links.find? isAltFeedLink with
    | some l => simp
    | none =>
      simp only [Option.map_none']
      exact head?_filterMap_find _ _ _
  · decide

/-- C5 (amended): every record the Reddit client produces has a non-null
`published`, but it is set from the post's `created_utc` creation time
(defaulting to the epoch when absent), not the fetch time; the fetch time
is recorded in `fetched_at`. -/
theorem reddit_published_is_creation_time (env : Env) (now : Int)
    (sub : String) (d : RedditPost) :
    ((normalizeRedditChild env now sub d).published = some (d.created_utc.getD 0)
      ∧ (normalizeRedditChild env now sub d).fetched_at = now)
    ∧ ((normalizeRedditPostData env now d).published = some (d.created_utc.getD 0)
      ∧ (normalizeRedditPostData env now d).fetched_at = now) := by
  refine ⟨⟨?_, ?_⟩, ?_, ?_⟩
  · simp [normalizeRedditChild, redditContentFallback_published]
  · simp [normalizeRedditChild, redditContentFallback_fetched_at]
  · simp [normalizeRedditPostData, redditContentFallback_published]
  · simp [normalizeRedditPostData, redditContentFallback_fetched_at]

/-- C5 counterexample: for a post created at time 100 fetched at time 999,
`published` is 100 — the creation time — and differs from the fetch time
999 carried in `fetched_at`. -/
theorem reddit_published_not_fetch_time :
    (normalizeRedditChild envEmpty 999 "news" postW).published = some 100
    ∧ (normalizeRedditChild envEmpty 999 "news" postW).fetched_at = 999
    ∧ (normalizeRedditChild envEmpty 999 "news" postW).published
        ≠ some ((normalizeRedditChild envEmpty 999 "news" postW).fetched_at) := by
  decide

/-- C6: a URL beginning with `r/` enters the Reddit branch (the classifier
condition holds and it has no `/comments/` segment), but the subreddit
regex `reddit\.com/r/([^/]+)/?` finds no match in it, so no listing fetch
is dispatched and the URL contributes zero records — even in an
environment whose listing fetch would return a post. -/
theorem bare_subreddit_url_not_dispatched :
    pyStartsWith (pyLower "r/news") "r/" = true
    ∧ strContains (pyLower "r/news") "/comments/" = false
    ∧ extractSubreddit (pyLower "r/news") = none
    ∧ envRedW.subredditChildren "news" = .ok [postW]
    ∧ collect_from_urls envRedW 0 24 ["r/news"] = [] := by
  decide

/-- C7 (amended): scraper.extract_text implements first-non-empty-match-
wins (an empty `<article>` text falls through), while the feed-path
selector commits to a present `<article>`'s text even when empty; the two
agree on every document in which neither the article nor the main element
is present-with-empty-text. -/
theorem extractors_agreement (doc : HtmlDoc)
    (h1 : doc.articleText ≠ some "") (h2 : doc.mainText ≠ some "") :
    extract_text doc = fetchArticleText doc
    ∧ ∀ m ps, extract_text { articleText := some "", mainText := m, pTexts := ps }
        = extract_text { articleText := none, mainText := m, pTexts := ps } := by
  constructor
  · obtain ⟨a, m, ps⟩ := doc
    cases a with
    | some t =>
      have ht : t ≠ "" := fun h => h1 (by rw [h])
      simp [extract_text, fetchArticleText, ht]
    | none =>
      cases m with
      | some t =>
        have ht : t ≠ "" := fun h => h2 (by rw [h])
        simp [extract_text, extractTextMain, fetchArticleText, ht]
      | none =>
        cases ps with
        | nil => decide
        | cons p ps2 =>
          simp only [extract_text, extractTextMain, extractTextPs,
            fetchArticleText, List.isEmpty_cons, Bool.false_eq_true, if_false]
  · intro m ps
    rfl

/-- C7 witness: the two selectors agree on a document whose article text
is non-empty. -/
theorem extractors_agreement_witness :
    extract_text { articleText := some "Body", mainText := none, pTexts := [] }
      = fetchArticleText { articleText := some "Body", mainText := none, pTexts := [] } :=
  (extractors_agreement
    { articleText := some "Body", mainText := none, pTexts := [] }
    (by decide) (by decide)).1

/-- C7 counterexample: on a page whose `<article>` is present but empty
while a main element has text, the scraper extractor falls through and
yields that text, the feed-path selector yields nothing — the two compute
different texts. -/
theorem extractors_differ_on_empty_article :
    extract_text { articleText := some "", mainText := some "X", pTexts := [] }
        = some "X"
    ∧ fetchArticleText { articleText := some "", mainText := some "X", pTexts := [] }
        = none := by
  decide

/-- C8: every record the Twitter client returns has a null `published`,
its `title` is the first 120 characters of the text extracted from the
oEmbed HTML fragment, and its `authors` come from the endpoint's
author-name field, falling back to the author-URL field. -/
theorem x_record_shape (env : Env) (now : Int) (url : String)
    (r : NormalizedRecord) (h : fetch_x_status env now url = some r) :
    r.published = none
    ∧ ∃ d, env.oembed url = .ok d
        ∧ r.title = some (d.text.take 120)
        ∧ r.authors = (match truthy d.author_name with
            | some n => [n]
            | none => match truthy d.author_url with
              | some u => [u]
              | none => []) := by
  unfold fetch_x_status fetch_x_oembed at h
  cases hd : env.oembed url with
  | error e =>
    simp only [hd] at h
    exact Option.noConfusion h
  | ok d =>
    simp only [hd, Option.some.injEq] at h
    subst h
    exact ⟨rfl, d, rfl, rfl, rfl⟩

/-- C8 witness: a successful oEmbed fetch yields a record with null
`published`. -/
theorem x_record_shape_witness :
    (xItem 5 "https://x.com/a/status/1" oembedW).published = none :=
  (x_record_shape envTwW 5 "https://x.com/a/status/1"
    (xItem 5 "https://x.com/a/status/1" oembedW) rfl).1

/-- C9: the CLI fetch tool exits with code 2 exactly when no URLs are
ultimately available (from `--url`, piped stdin or interactive input), and
with code 0 otherwise; the exit code does not depend on the environment,
i.e. per-URL fetch failures never change it. -/
theorem cli_exit_code_policy (env env2 : Env) (now hours : Int)
    (inp : CliInput) :
    ((cliMain env now hours inp).1 = 2 ↔ resolveUrls inp = [])
    ∧ ((cliMain env now hours inp).1 = 0 ↔ resolveUrls inp ≠ [])
    ∧ (cliMain env now hours inp).1 = (cliMain env2 now hours inp).1 := by
  cases hu : resolveUrls inp with
  | nil => simp [cliMain, hu]
  | cons a as => simp [cliMain, hu]

/-- C9 witness: no URLs from any source exits 2; with one `--url`, the
exit code is the same whether the feed fetch fails or succeeds. -/
theorem cli_exit_code_policy_witness :
    ((cliMain envEmpty 0 24 inpNone).1 = 2 ↔ resolveUrls inpNone = [])
    ∧ (cliMain envEmpty 0 24 inpOne).1 = (cliMain envFeedW 0 24 inpOne).1 :=
  ⟨(cli_exit_code_policy envEmpty envEmpty 0 24 inpNone).1,
   (cli_exit_code_policy envEmpty envFeedW 0 24 inpOne).2.2⟩

end NewsAgg
